import Mathlib

/-!
Shallow embedding of the senlin cluster-action engine core:
the cluster action handlers (src/senlin/engine/actions/cluster_action.py),
the deletion policy (src/senlin/policies/deletion_policy.py) and the Heat
stack profile poller (src/senlin/profiles/os/heat/stack.py).

Python dictionaries that the code reads with `dict.get(key, default)` are
modelled as structures of `Option` fields, where `none` means the key is
absent; `Option.getD` mirrors the default.  The `random.randrange` calls
are modelled by an oracle `rng : List Nat`, one entry consumed per call,
reduced modulo the population argument of `randrange`.
-/

namespace Senlin

/-! ## Core value types -/

/-- Action results (RES_XXX constants of engine.actions.base). -/
inductive ActionResult
  | RES_OK
  | RES_ERROR
  | RES_RETRY
  | RES_CANCEL
  | RES_TIMEOUT
  | RES_FAILED
deriving DecidableEq

/-- Action status values (engine.actions.base / spec section 3). -/
inductive ActionStatus
  | INIT
  | WAITING
  | READY
  | RUNNING
  | SUCCEEDED
  | FAILED
  | CANCELLED
  | TIMEOUT
deriving DecidableEq

/-- Python exceptions raised by the modelled code paths. -/
inductive PyErr
  | attributeError (attr : String)
  | nodeStatusError (status : String) (reason : String)
  | indexError
deriving DecidableEq

/-- A node row, with the attributes read by the modelled handlers
(db_api.node_get_all_by_cluster rows and node_mod.Node objects). -/
structure Node where
  id : String
  name : String
  cluster_id : Option String
  status : String
  profile_id : String
  created_time : Nat
deriving DecidableEq

def dummyNode : Node :=
  { id := "", name := "", cluster_id := none, status := "", profile_id := "",
    created_time := 0 }

/-- A value stored in a candidates list of the policy_data envelope.
The deletion policy appends node rows (deletion_policy.py lines 123, 134,
136), while do_scale_in appends plain node ids (cluster_action.py line
389); Python being untyped, both land in the same lists. -/
inductive Candidate
  | byId (id : String)
  | byNode (node : Node)
deriving DecidableEq

/-! ## The policy_data envelope

Only the keys the modelled code reads or writes are represented:
policy_data has keys "deletion", "creation" and (read by do_scale_in line
378) a top level "candidates" key, distinct from deletion["candidates"]. -/

structure CreationData where
  count : Option Int
deriving DecidableEq

structure DeletionData where
  count : Option Int
  candidates : Option (List Candidate)
  destroy_after_delete : Option Bool
  destroy_after_deletion : Option Bool
  grace_period : Option Nat
deriving DecidableEq

def emptyDeletionData : DeletionData :=
  { count := none, candidates := none, destroy_after_delete := none,
    destroy_after_deletion := none, grace_period := none }

structure PolicyData where
  deletion : Option DeletionData
  creation : Option CreationData
  candidates : Option (List Candidate)
deriving DecidableEq

/-! ## Deletion policy (src/senlin/policies/deletion_policy.py) -/

/-- Criteria value strings (deletion_policy.py lines 62-66).  Note the
source misspells the OLDEST_PROFILE_FIRST value as OLDEST_PROFILE_FRIST. -/
def RANDOM : String := "RANDOM"

def OLDEST_FIRST : String := "OLDEST_FIRST"

def YOUNGEST_FIRST : String := "YOUNGEST_FIRST"

def OLDEST_PROFILE_FIRST : String := "OLDEST_PROFILE_FRIST"

/-- The attributes DeletionPolicy.__init__ sets on the policy object
(deletion_policy.py lines 101-110). -/
structure DeletionPolicyProps where
  criteria : String
  grace_period : Nat
  destroy_after_deletion : Bool
deriving DecidableEq

/-- Sort key comparison for Python sorted(nodes, key .. (created_time,
name)): lexicographic on the pair, ascending. -/
def nodeSortKeyLe (a b : Node) : Bool :=
  decide (a.created_time < b.created_time) ||
    (decide (a.created_time = b.created_time) && decide (a.name ≤ b.name))

/-- Insert x after all already-placed elements whose key is ≤ key x;
combined with a left fold this reproduces the stable ascending sort that
Python sorted performs. -/
def insertSorted (le : Node → Node → Bool) (x : Node) : List Node → List Node
  | [] => [x]
  | y :: ys => if le y x then y :: insertSorted le x ys else x :: y :: ys

/-- Python sorted: stable sort, ascending by key. -/
def pySorted (le : Node → Node → Bool) (l : List Node) : List Node :=
  l.foldl (fun acc x => insertSorted le x acc) []

/-- Python negative index access sorted_list[-i] (deletion_policy.py line
136): for i = 0 this is sorted_list[0], the FIRST element; for i ≥ 1 it is
the element at position length - i. -/
def pyNegGet (l : List Node) (i : Nat) : Node :=
  if i = 0 then l.getD 0 dummyNode else l.getD (l.length - i) dummyNode

/-- The RANDOM branch of _select_candidates (deletion_policy.py lines
119-127): i counts down from count, each step draws randrange(i), appends
nodes[rand] and removes it from the working list. -/
def policyRandomSelect : List Nat → List Node → Nat → List Candidate
  | _, _, 0 => []
  | rng, nodes, Nat.succ k =>
    let rand := rng.headD 0 % (k + 1)
    let chosen := nodes.getD rand dummyNode
    Candidate.byNode chosen :: policyRandomSelect rng.tail (nodes.erase chosen) k

/-- DeletionPolicy._select_candidates (deletion_policy.py lines 112-151).
nodes stands for db_api.node_get_all_by_cluster(context, cluster_id).
After the RANDOM and age-based branches the source evaluates
self.criterial (line 140), an attribute that is never assigned, so every
remaining criteria value raises AttributeError; the OLDEST_PROFILE_FRIST
branch below it (lines 141-149, which would append id/created_at pairs
rather than node rows) is unreachable. -/
def select_candidates (p : DeletionPolicyProps) (nodes : List Node)
    (count0 : Int) (rng : List Nat) : Except PyErr (List Candidate) :=
  let count := if count0 > (nodes.length : Int) then (nodes.length : Int) else count0
  if p.criteria = RANDOM then
    .ok (policyRandomSelect rng nodes count.toNat)
  else if p.criteria = OLDEST_FIRST ∨ p.criteria = YOUNGEST_FIRST then
    let sorted_list := pySorted nodeSortKeyLe nodes
    .ok ((List.range count.toNat).map (fun i =>
      if p.criteria = OLDEST_FIRST then
        Candidate.byNode (sorted_list.getD i dummyNode)
      else
        Candidate.byNode (pyNegGet sorted_list i)))
  else
    .error (PyErr.attributeError "criterial")

/-- DeletionPolicy.pre_op (deletion_policy.py lines 153-174). -/
def pre_op (p : DeletionPolicyProps) (nodes : List Node) (rng : List Nat)
    (policy_data : PolicyData) : Except PyErr PolicyData :=
  let triple :=
    match policy_data.deletion with
    | some pd => (pd, pd.count.getD 1, pd.candidates.getD [])
    | none => (emptyDeletionData, (1 : Int), ([] : List Candidate))
  let pd := triple.1
  let count := triple.2.1
  let candidates := triple.2.2
  match (if candidates.length = 0 then select_candidates p nodes count rng
         else .ok candidates) with
  | .error e => .error e
  | .ok candidates =>
    let pd := { pd with candidates := some candidates,
                        destroy_after_deletion := some p.destroy_after_deletion,
                        grace_period := some p.grace_period }
    .ok { policy_data with deletion := some pd }

/-! ## Scale in / scale out (cluster_action.py lines 326-406)

The handlers are modelled up to the point where they hand a node list to
_create_nodes or _delete_nodes; what they decide to create or delete is
captured by ScaleDecision. -/

inductive ScaleDecision
  | noScaling
  | createNodes (count : Nat)
  | deleteNodes (candidates : List Candidate)
deriving DecidableEq

/-- The random victim selection loop shared by do_scale_in (lines 384-391)
and the negative-count branch of do_scale_out (lines 343-350): each step
draws randrange(len(nodes)), appends nodes[r].id and removes nodes[r]. -/
def scaleRandomSelect : List Nat → List Node → Nat → List Candidate
  | _, _, 0 => []
  | rng, nodes, Nat.succ k =>
    match nodes with
    | [] => []
    | _ :: _ =>
      let r := rng.headD 0 % nodes.length
      let victim := nodes.getD r dummyNode
      Candidate.byId victim.id :: scaleRandomSelect rng.tail (nodes.erase victim) k

/-- ClusterAction.do_scale_in (cluster_action.py lines 366-395), up to the
_delete_nodes call.  nodes stands for
db_api.node_get_all_by_cluster(context, cluster.id).  Note line 378 reads
the TOP LEVEL key policy_data["candidates"], not
policy_data["deletion"]["candidates"]. -/
def do_scale_in_selection (inputs_count : Int) (policy_data : PolicyData)
    (nodes : List Node) (rng : List Nat) : ScaleDecision :=
  let state :=
    if inputs_count = 0 then
      match policy_data.deletion with
      | some pd => (pd.count.getD 1, policy_data.candidates.getD [])
      | none => ((0 : Int), ([] : List Candidate))
    else (inputs_count, ([] : List Candidate))
  let count := state.1
  let candidates := state.2
  if count = 0 then .noScaling
  else
    let candidates :=
      if candidates.length = 0 then scaleRandomSelect rng nodes count.toNat
      else candidates
    .deleteNodes candidates

/-- ClusterAction.do_scale_out (cluster_action.py lines 326-353), up to
the _create_nodes / _delete_nodes call. -/
def do_scale_out_selection (inputs_count : Int) (policy_data : PolicyData)
    (nodes : List Node) (rng : List Nat) : ScaleDecision :=
  let count :=
    if inputs_count = 0 then
      match policy_data.creation with
      | some pd => pd.count.getD 1
      | none => (0 : Int)
    else inputs_count
  if count = 0 then .noScaling
  else if count > 0 then .createNodes count.toNat
  else .deleteNodes (scaleRandomSelect rng nodes count.toNat)

/-! ## Waiting on dependents (cluster_action.py lines 52-83) -/

/-- One poll iteration view: the status read by get_status plus what
is_cancelled() and wallclock() would observe at that moment. -/
structure WaitObs where
  status : ActionStatus
  cancelled : Bool
  wallclock : Nat
deriving DecidableEq

/-- Modelled from the spec: Action.is_timeout lives in
engine/actions/base.py which is not under src/; spec section 5 states that
a wait times out when wallclock() minus start_time exceeds the action
timeout. -/
def is_timeout (start_time timeout wallclock : Nat) : Bool :=
  decide (wallclock - start_time > timeout)

/-- Return shape of _wait_for_dependents: three branches return a
(result, reason) pair but the timeout branch (line 77) returns the bare
result value. -/
inductive WaitReturn
  | pair (res : ActionResult) (reason : String)
  | single (res : ActionResult)
deriving DecidableEq

/-- ClusterAction._wait_for_dependents (cluster_action.py lines 52-83),
driven by the successive observations of status / cancel / clock; none
means the observation list ran out while the action still waits. -/
def wait_for_dependents (action : String) (id : String)
    (start_time timeout : Nat) : List WaitObs → Option WaitReturn
  | [] => none
  | obs :: rest =>
    if obs.status = ActionStatus.READY then
      some (.pair .RES_OK "All dependents ended with success")
    else if obs.status = ActionStatus.FAILED then
      some (.pair .RES_ERROR
        (action ++ " [" ++ id ++ "] failed due to dependent action failure"))
    else if obs.cancelled then
      some (.pair .RES_CANCEL (action ++ " " ++ id ++ " cancelled"))
    else if is_timeout start_time timeout obs.wallclock then
      some (.single .RES_TIMEOUT)
    else
      wait_for_dependents action id start_time timeout rest

/-! ## execute wrapper (cluster_action.py lines 507-536) -/

def CLUSTER_DELETE : String := "CLUSTER_DELETE"

/-- The environment execute runs against: whether Cluster.load finds the
target, whether senlin_lock.cluster_lock_acquire grants the lock, and what
self._execute does (ok pair, or a raised exception message). -/
structure ExecuteEnv where
  cluster_found : Bool
  lock_acquired : Bool
  exec_result : Except String (ActionResult × String)

inductive ExecOutcome
  | ret (res : ActionResult) (reason : String)
  | raised (msg : String)
deriving DecidableEq

/-- What an execute run did: the forced flag passed to the acquire call
(none when acquire was never reached), whether cluster_lock_release ran,
and the final outcome. -/
structure ExecuteTrace where
  acquire_forced : Option Bool
  lock_released : Bool
  outcome : ExecOutcome
deriving DecidableEq

/-- ClusterAction.execute (cluster_action.py lines 507-536): load cluster,
acquire the cluster lock (forced iff the verb is CLUSTER_DELETE, line
523), run _execute under try/finally with the release in the finally
block. -/
def execute (action : String) (target : String) (env : ExecuteEnv) :
    ExecuteTrace :=
  if ¬ env.cluster_found then
    { acquire_forced := none, lock_released := false,
      outcome := .ret .RES_ERROR ("Cluster " ++ target ++ " not found") }
  else
    let forced := if action = CLUSTER_DELETE then true else false
    if ¬ env.lock_acquired then
      { acquire_forced := some forced, lock_released := false,
        outcome := .ret .RES_ERROR "Failed locking cluster" }
    else
      match env.exec_result with
      | .ok rr =>
        { acquire_forced := some forced, lock_released := true,
          outcome := .ret rr.1 rr.2 }
      | .error e =>
        { acquire_forced := some forced, lock_released := true,
          outcome := .raised e }

/-! ## Policy attach / detach / update (cluster_action.py lines 408-482) -/

/-- A policy object as loaded by policy_mod.Policy.load, with the
attributes the handlers read. -/
structure PolicyObj where
  id : String
  type : String
  cooldown : Nat
  level : Nat
deriving DecidableEq

/-- A cluster_policy binding row as returned by
db_api.cluster_policy_get_all. -/
structure ClusterPolicy where
  policy_id : String
deriving DecidableEq

/-- The values dict persisted by db_api.cluster_policy_attach
(cluster_action.py lines 432-437). -/
structure AttachValues where
  cooldown : Nat
  level : Nat
  priority : Nat
  enabled : Bool
deriving DecidableEq

/-- The inputs keys read by the three policy handlers, each possibly
absent. -/
structure PolicyInputs where
  policy_id : Option String
  cooldown : Option Nat
  level : Option Nat
  priority : Option Nat
  enabled : Option Bool
deriving DecidableEq

/-- Outcome of do_attach_policy: a returned (result, reason) pair carrying
the binding values persisted on success, or one of the two exceptions the
handler raises. -/
inductive AttachOutcome
  | ret (res : ActionResult) (reason : String) (persisted : Option AttachValues)
  | policyNotSpecifiedError
  | policyExistsError (policy_type : String)
deriving DecidableEq

def AttachOutcome.isRet : AttachOutcome → Bool
  | .ret _ _ _ => true
  | _ => false

/-- The loop over existing bindings (cluster_action.py lines 417-426):
first same-id binding returns the idempotent OK, otherwise a binding whose
policy has the same type raises PolicyExists. -/
def attachConflictScan (policy_id : String) (ptype : String)
    (load : String → PolicyObj) : List ClusterPolicy → Option AttachOutcome
  | [] => none
  | existing :: rest =>
    if existing.policy_id = policy_id then
      some (.ret .RES_OK "Policy already attached" none)
    else if (load existing.policy_id).type = ptype then
      some (.policyExistsError ptype)
    else
      attachConflictScan policy_id ptype load rest

/-- Python truthiness of `if not policy_id` for an optional string input:
true when the key is absent (None) or the value is the empty string. -/
def pyFalsyStr : Option String → Bool
  | none => true
  | some s => decide (s = "")

/-- ClusterAction.do_attach_policy (cluster_action.py lines 408-443).
load stands for policy_mod.Policy.load, attach_res for the boolean result
of policy.attach. -/
def do_attach_policy (inputs : PolicyInputs) (load : String → PolicyObj)
    (bindings : List ClusterPolicy) (attach_res : Bool) : AttachOutcome :=
  match inputs.policy_id with
  | none => .policyNotSpecifiedError
  | some pid =>
    if pid = "" then .policyNotSpecifiedError
    else
      let policy := load pid
      match attachConflictScan pid policy.type load bindings with
      | some out => out
      | none =>
        if attach_res = false then .ret .RES_ERROR "Failed attaching policy" none
        else
          .ret .RES_OK "Policy attached" (some
            { cooldown := inputs.cooldown.getD policy.cooldown,
              level := inputs.level.getD policy.level,
              priority := inputs.priority.getD 50,
              enabled := inputs.enabled.getD true })

inductive DetachOutcome
  | ret (res : ActionResult) (reason : String)
  | policyNotSpecifiedError
deriving DecidableEq

/-- ClusterAction.do_detach_policy (cluster_action.py lines 445-458);
detach_res is the boolean result of policy.detach. -/
def do_detach_policy (inputs : PolicyInputs) (detach_res : Bool) :
    DetachOutcome :=
  match inputs.policy_id with
  | none => .policyNotSpecifiedError
  | some pid =>
    if pid = "" then .policyNotSpecifiedError
    else if detach_res = false then .ret .RES_ERROR "Failed detaching policy"
    else .ret .RES_OK "Policy detached"

/-- The values dict built by do_update_policy: only the inputs keys that
are present are copied. -/
structure UpdateValues where
  cooldown : Option Nat
  level : Option Nat
  priority : Option Nat
  enabled : Option Bool
deriving DecidableEq

inductive UpdateOutcome
  | ret (res : ActionResult) (reason : String) (values : UpdateValues)
  | policyNotSpecifiedError
deriving DecidableEq

/-- ClusterAction.do_update_policy (cluster_action.py lines 460-482). -/
def do_update_policy (inputs : PolicyInputs) : UpdateOutcome :=
  match inputs.policy_id with
  | none => .policyNotSpecifiedError
  | some pid =>
    if pid = "" then .policyNotSpecifiedError
    else
      .ret .RES_OK "Policy updated"
        { cooldown := inputs.cooldown, level := inputs.level,
          priority := inputs.priority, enabled := inputs.enabled }

/-! ## Adding nodes (cluster_action.py lines 235-289) -/

def ACTIVE : String := "ACTIVE"

/-- The cluster attributes do_add_nodes reads. -/
structure ClusterObj where
  id : String
  profile_id : String
deriving DecidableEq

/-- The validation loop of do_add_nodes (cluster_action.py lines 240-264).
Python iterates the nodes list by an index i that advances every
iteration even when line 248 removes the current element, so the element
that shifts into position i is skipped.  loadN stands for Node.load (none
models NodeNotFound), pt maps a profile id to its profile type
(node.rt["profile"].type).  The fuel argument bounds the iteration count:
i grows by one per iteration and the list never grows, so a fuel equal to
the initial list length is never exhausted and the fuel-0 case returns the
same triple as the loop exit. -/
def add_nodes_validate (loadN : String → Option Node) (pt : String → String)
    (cluster : ClusterObj) :
    Nat → Nat → List String → List (String × String) → Option Node →
    List String × List (String × String) × Option Node
  | 0, _, nodes, failures, lastNode => (nodes, failures, lastNode)
  | fuel + 1, i, nodes, failures, lastNode =>
    if h : i < nodes.length then
      let node_id := nodes.get ⟨i, h⟩
      match loadN node_id with
      | none =>
        add_nodes_validate loadN pt cluster fuel (i + 1) nodes
          (failures ++ [(node_id, "Node not found")]) lastNode
      | some node =>
        if node.cluster_id = some cluster.id then
          add_nodes_validate loadN pt cluster fuel (i + 1)
            (nodes.erase node_id) failures (some node)
        else if node.cluster_id.isSome then
          add_nodes_validate loadN pt cluster fuel (i + 1) nodes
            (failures ++ [(node_id,
              "Node already owned by cluster " ++ node.cluster_id.getD "")])
            (some node)
        else if node.status ≠ ACTIVE then
          add_nodes_validate loadN pt cluster fuel (i + 1) nodes
            (failures ++ [(node_id, "Node not in ACTIVE status")]) (some node)
        else if pt node.profile_id ≠ pt cluster.profile_id then
          add_nodes_validate loadN pt cluster fuel (i + 1) nodes
            (failures ++ [(node.id, "Profile type does not match")]) (some node)
        else
          add_nodes_validate loadN pt cluster fuel (i + 1) nodes failures
            (some node)
    else (nodes, failures, lastNode)

/-- A NODE_JOIN child action as built on cluster_action.py lines 274-278. -/
structure ChildAction where
  name : String
  target : String
  inputs_cluster_id : String
deriving DecidableEq

inductive AddNodesOutcome
  | err (failures : List (String × String))
  | ok (reason : String)
  | spawn (children : List ChildAction)
  | nameErrorNode
deriving DecidableEq

/-- Python slice id[:8]. -/
def pyTake8 (s : String) : String := String.mk (s.data.take 8)

/-- ClusterAction.do_add_nodes (cluster_action.py lines 235-289) up to the
child-action creation.  The children loop iterates the surviving nodes
list but lines 275-276 build name and target from the variable node, which
still holds the LAST node loaded by the validation loop, not the current
node_id; nameErrorNode marks the impossible case where that variable was
never bound. -/
def do_add_nodes (loadN : String → Option Node) (pt : String → String)
    (cluster : ClusterObj) (inputNodes : List String) : AddNodesOutcome :=
  let scan := add_nodes_validate loadN pt cluster inputNodes.length 0
    inputNodes [] none
  let nodes := scan.1
  let failures := scan.2.1
  if failures.length > 0 then .err failures
  else if nodes.length = 0 then .ok "Completed adding nodes"
  else
    match scan.2.2 with
    | none => .nameErrorNode
    | some node =>
      .spawn (nodes.map (fun _ =>
        { name := "node_join_" ++ pyTake8 node.id, target := node.id,
          inputs_cluster_id := cluster.id }))

/-! ## Heat stack status polling (src/senlin/profiles/os/heat/stack.py) -/

/-- Python str.split(sep, 1) on the underscore character: the characters
before the first underscore, and optionally the remainder. -/
def splitOnceAux : List Char → List Char × Option (List Char)
  | [] => ([], none)
  | c :: rest =>
    if c = '_' then ([], some rest)
    else
      let p := splitOnceAux rest
      (c :: p.1, p.2)

def pySplit1 (s : String) : String × Option String :=
  let p := splitOnceAux s.data
  (String.mk p.1, p.2.map String.mk)

/-- StackProfile._check_action_complete (stack.py lines 119-143).
stack_status and stack_status_reason come from the polled stack; action is
the expected verb.  The FAILED branch and its else branch raise the same
NodeStatusError, and a status word with no underscore would hit an
IndexError on status[1]. -/
def check_action_complete (stack_status stack_status_reason : String)
    (action : String) : Except PyErr Bool :=
  let status := pySplit1 stack_status
  if status.1 = action then
    match status.2 with
    | none => .error PyErr.indexError
    | some stage =>
      if stage = "IN_PROGRESS" then .ok false
      else if stage = "COMPLETE" then .ok true
      else .error (PyErr.nodeStatusError stack_status stack_status_reason)
  else
    .error (PyErr.nodeStatusError stack_status
      ("Node action mismatch detected: expected=" ++ action ++
        " actual=" ++ status.1))

/-! ## Test fixtures: concrete nodes, loaders and inputs -/

/-- Three nodes of one cluster with ascending created_time. -/
def n1 : Node := ⟨"n1", "n1", some "c1", "ACTIVE", "p1", 1⟩

def n2 : Node := ⟨"n2", "n2", some "c1", "ACTIVE", "p1", 2⟩

def n3 : Node := ⟨"n3", "n3", some "c1", "ACTIVE", "p1", 3⟩

/-- Node loader for the add-nodes scenario: two free ACTIVE nodes. -/
def c7load : String → Option Node := fun id =>
  if id = "node-aaa" then some ⟨"node-aaa", "node-aaa", none, "ACTIVE", "p1", 1⟩
  else if id = "node-bbb" then some ⟨"node-bbb", "node-bbb", none, "ACTIVE", "p1", 2⟩
  else none

/-- Policy loader where P1 and P2 are distinct policies of the same type. -/
def c2load : String → PolicyObj := fun pid =>
  if pid = "P1" then ⟨"P1", "DeletionPolicy", 1, 1⟩ else ⟨"P2", "DeletionPolicy", 2, 2⟩

/-- Policy loader with a single policy type used by positive-path runs. -/
def w2load : String → PolicyObj := fun _ => ⟨"P2", "ScalingPolicy", 11, 3⟩

/-- Policy loader for the missing-policy-id scenario. -/
def w9load : String → PolicyObj := fun _ => ⟨"P9", "DeletionPolicy", 0, 0⟩

/-! ## Claims -/

/-- C1: do_scale_in is supposed to use the candidates an attached deletion
policy supplied, but the deletion policy pre_op stores its selection under
policy_data["deletion"]["candidates"] while do_scale_in line 378 reads the
top level policy_data["candidates"], which pre_op never writes; the
policy-selected candidate (the oldest node n1) is therefore ignored and a
random victim (n3 for this oracle) is chosen instead. -/
theorem scale_in_reads_toplevel_candidates_bug :
    pre_op ⟨OLDEST_FIRST, 0, true⟩ [n1, n2, n3] [] ⟨none, none, none⟩ =
      .ok ⟨some ⟨none, some [Candidate.byNode n1], none, some true, some 0⟩,
        none, none⟩
    ∧ do_scale_in_selection 0
        ⟨some ⟨none, some [Candidate.byNode n1], none, some true, some 0⟩,
          none, none⟩
        [n1, n2, n3] [2] = ScaleDecision.deleteNodes [Candidate.byId "n3"] :=
  ⟨rfl, rfl⟩

theorem attachConflictScan_none (pid ptype : String) (load : String → PolicyObj)
    (bindings : List ClusterPolicy)
    (h : ∀ b ∈ bindings, b.policy_id ≠ pid ∧ (load b.policy_id).type ≠ ptype) :
    attachConflictScan pid ptype load bindings = none := by
  induction bindings with
  | nil => rfl
  | cons b rest ih =>
    have hb := h b (by simp)
    simp only [attachConflictScan, if_neg hb.1, if_neg hb.2]
    exact ih (fun x hx => h x (by simp [hx]))

theorem attachConflictScan_already (pid ptype : String) (load : String → PolicyObj)
    (bindings : List ClusterPolicy)
    (hex : ∃ b ∈ bindings, b.policy_id = pid)
    (hall : ∀ b ∈ bindings, b.policy_id = pid ∨ (load b.policy_id).type ≠ ptype) :
    attachConflictScan pid ptype load bindings =
      some (.ret .RES_OK "Policy already attached" none) := by
  induction bindings with
  | nil => simp at hex
  | cons b rest ih =>
    by_cases hb : b.policy_id = pid
    · simp [attachConflictScan, hb]
    · have hty : (load b.policy_id).type ≠ ptype :=
        (hall b (by simp)).resolve_left hb
      simp only [attachConflictScan, if_neg hb, if_neg hty]
      apply ih
      · rcases hex with ⟨x, hx, hxe⟩
        simp only [List.mem_cons] at hx
        rcases hx with rfl | hx
        · exact absurd hxe hb
        · exact ⟨x, hx, hxe⟩
      · exact fun x hx => hall x (by simp [hx])

theorem attachConflictScan_conflict (pid ptype : String) (load : String → PolicyObj)
    (bindings : List ClusterPolicy)
    (hall : ∀ b ∈ bindings, b.policy_id ≠ pid)
    (hex : ∃ b ∈ bindings, (load b.policy_id).type = ptype) :
    attachConflictScan pid ptype load bindings = some (.policyExistsError ptype) := by
  induction bindings with
  | nil => simp at hex
  | cons b rest ih =>
    have hb := hall b (by simp)
    by_cases hty : (load b.policy_id).type = ptype
    · simp [attachConflictScan, hb, hty]
    · simp only [attachConflictScan, if_neg hb, if_neg hty]
      apply ih (fun x hx => hall x (by simp [hx]))
      rcases hex with ⟨x, hx, hxe⟩
      simp only [List.mem_cons] at hx
      rcases hx with rfl | hx
      · exact absurd hxe hty
      · exact ⟨x, hx, hxe⟩

/-- C2 counterexample: attaching P2 while P1, a different policy of the
same type, is bound does NOT return a (RES_ERROR, reason) pair; the
handler raises the PolicyExists exception (cluster_action.py line 426),
which the execution of the outcome marks as not a returned pair. -/
theorem attach_policy_type_conflict_raises :
    do_attach_policy ⟨some "P2", none, none, none, none⟩ c2load [⟨"P1"⟩] true =
      AttachOutcome.policyExistsError "DeletionPolicy"
    ∧ (do_attach_policy ⟨some "P2", none, none, none, none⟩ c2load
        [⟨"P1"⟩] true).isRet = false :=
  ⟨rfl, rfl⟩

/-- C2 (amended): a binding with the same policy id returns RES_OK
idempotently; a different policy of the same type makes the handler RAISE
PolicyExists (not return RES_ERROR); otherwise, once the attach hook
succeeds, the binding is persisted with priority defaulting to 50, enabled
defaulting to true, and level and cooldown falling back to the policy
object values. -/
theorem attach_policy_behavior (inputs : PolicyInputs) (load : String → PolicyObj)
    (bindings : List ClusterPolicy) (attach_res : Bool) (pid : String)
    (hpid : inputs.policy_id = some pid) (hne : pid ≠ "") :
    ((∃ b ∈ bindings, b.policy_id = pid) →
      (∀ b ∈ bindings, b.policy_id = pid ∨ (load b.policy_id).type ≠ (load pid).type) →
      do_attach_policy inputs load bindings attach_res =
        .ret .RES_OK "Policy already attached" none)
    ∧ ((∀ b ∈ bindings, b.policy_id ≠ pid) →
        (∃ b ∈ bindings, (load b.policy_id).type = (load pid).type) →
        do_attach_policy inputs load bindings attach_res =
          .policyExistsError (load pid).type)
    ∧ ((∀ b ∈ bindings, b.policy_id ≠ pid ∧ (load b.policy_id).type ≠ (load pid).type) →
        attach_res = true →
        do_attach_policy inputs load bindings attach_res =
          .ret .RES_OK "Policy attached" (some
            { cooldown := inputs.cooldown.getD (load pid).cooldown,
              level := inputs.level.getD (load pid).level,
              priority := inputs.priority.getD 50,
              enabled := inputs.enabled.getD true })) := by
  refine ⟨?_, ?_, ?_⟩
  · intro hex hall
    simp [do_attach_policy, hpid, hne,
      attachConflictScan_already pid (load pid).type load bindings hex hall]
  · intro hall hex
    simp [do_attach_policy, hpid, hne,
      attachConflictScan_conflict pid (load pid).type load bindings hall hex]
  · intro h hres
    simp [do_attach_policy, hpid, hne,
      attachConflictScan_none pid (load pid).type load bindings h, hres]

/-- C2 witness: a fresh attach with no prior bindings persists cooldown 11
and level 3 from the policy object, priority 50 and enabled true. -/
theorem attach_policy_behavior_witness :
    do_attach_policy ⟨some "P2", none, some 7, none, none⟩ w2load [] true =
      .ret .RES_OK "Policy attached" (some ⟨11, 7, 50, true⟩) := by
  exact (attach_policy_behavior ⟨some "P2", none, some 7, none, none⟩ w2load []
    true "P2" rfl (by decide)).2.2 (by simp) rfl

/-- C3: the four wait outcomes do not all share the pair shape: when
is_timeout fires, _wait_for_dependents line 77 returns the bare
RES_TIMEOUT value, while for example a FAILED dependent yields a
(result, reason) pair, so the tuple destructuring done by every caller
fails on the timeout path. -/
theorem wait_timeout_returns_bare_value :
    wait_for_dependents "CLUSTER_CREATE" "a1" 0 5
      [⟨ActionStatus.WAITING, false, 10⟩] =
      some (WaitReturn.single ActionResult.RES_TIMEOUT)
    ∧ wait_for_dependents "CLUSTER_CREATE" "a1" 0 5
        [⟨ActionStatus.FAILED, false, 1⟩] =
      some (WaitReturn.pair ActionResult.RES_ERROR
        "CLUSTER_CREATE [a1] failed due to dependent action failure")
    ∧ wait_for_dependents "CLUSTER_CREATE" "a1" 0 5
        [⟨ActionStatus.WAITING, true, 1⟩] =
      some (WaitReturn.pair ActionResult.RES_CANCEL "CLUSTER_CREATE a1 cancelled")
    ∧ wait_for_dependents "CLUSTER_CREATE" "a1" 0 5
        [⟨ActionStatus.WAITING, false, 1⟩, ⟨ActionStatus.READY, false, 2⟩] =
      some (WaitReturn.pair ActionResult.RES_OK
        "All dependents ended with success") :=
  ⟨rfl, rfl, rfl, rfl⟩

/-- C4: execute acquires the cluster lock with forced true exactly for the
CLUSTER_DELETE verb; a failed acquisition returns the normal
(RES_ERROR, "Failed locking cluster") pair without raising; and whenever
the lock was acquired the finally block releases it on every exit path,
including a raising verb handler. -/
theorem execute_lock_protocol (action target : String) (env : ExecuteEnv) :
    (∀ f : Bool, (execute action target env).acquire_forced = some f →
      (f = true ↔ action = CLUSTER_DELETE))
    ∧ (env.cluster_found = true → env.lock_acquired = false →
        (execute action target env).outcome =
          ExecOutcome.ret ActionResult.RES_ERROR "Failed locking cluster"
        ∧ (execute action target env).lock_released = false)
    ∧ (env.cluster_found = true → env.lock_acquired = true →
        (execute action target env).lock_released = true) := by
  rcases env with ⟨found, locked, er⟩
  by_cases ha : action = CLUSTER_DELETE <;>
    cases found <;> cases locked <;>
    simp [execute, ha] <;> cases er <;> simp

/-- C4 witness: a CLUSTER_DELETE whose handler raises still releases the
lock. -/
theorem execute_lock_protocol_witness :
    (execute "CLUSTER_DELETE" "c1" ⟨true, true, .error "boom"⟩).lock_released =
      true := by
  exact (execute_lock_protocol "CLUSTER_DELETE" "c1"
    ⟨true, true, .error "boom"⟩).2.2 rfl rfl

/-- C5: for nodes created at times 1 < 2 < 3, YOUNGEST_FIRST with count 2
yields the FIRST and last of the sorted list (n1, n3) because line 136
indexes sorted_list[-i] from i = 0, not the last two (n2, n3) the spec
requires; OLDEST_FIRST correctly takes the first two, and a count above
the population is clamped to the population. -/
theorem youngest_first_picks_first_element :
    select_candidates ⟨YOUNGEST_FIRST, 0, true⟩ [n1, n2, n3] 2 [] =
      .ok [Candidate.byNode n1, Candidate.byNode n3]
    ∧ select_candidates ⟨OLDEST_FIRST, 0, true⟩ [n1, n2, n3] 2 [] =
      .ok [Candidate.byNode n1, Candidate.byNode n2]
    ∧ select_candidates ⟨OLDEST_FIRST, 0, true⟩ [n1, n2, n3] 5 [] =
      .ok [Candidate.byNode n1, Candidate.byNode n2, Candidate.byNode n3]
    ∧ select_candidates ⟨YOUNGEST_FIRST, 0, true⟩ [n1, n2, n3] 5 [] =
      .ok [Candidate.byNode n1, Candidate.byNode n3, Candidate.byNode n2] :=
  ⟨rfl, rfl, rfl, rfl⟩

/-- C6: with criteria OLDEST_PROFILE_FIRST, _select_candidates never
returns candidates at all: line 140 reads the never-assigned attribute
self.criterial and raises AttributeError, so the profile-age branch
(which would moreover append id/created_at maps rather than node
references) is unreachable. -/
theorem oldest_profile_first_attribute_error :
    select_candidates ⟨OLDEST_PROFILE_FIRST, 0, true⟩ [n1, n2, n3] 1 [] =
      .error (PyErr.attributeError "criterial") :=
  rfl

/-- C7: with two valid free nodes, do_add_nodes creates two NODE_JOIN
children but both carry the name and target of the LAST validated node
(node-bbb), because lines 275-276 use the leftover loop variable node
instead of node_id; a hard rejection (unknown node id) still returns the
per-node failure map with no children. -/
theorem add_nodes_children_target_last_node :
    do_add_nodes c7load (fun _ => "os.heat.stack") ⟨"c1", "pc"⟩
      ["node-aaa", "node-bbb"] =
      AddNodesOutcome.spawn [⟨"node_join_node-bbb", "node-bbb", "c1"⟩,
        ⟨"node_join_node-bbb", "node-bbb", "c1"⟩]
    ∧ do_add_nodes c7load (fun _ => "os.heat.stack") ⟨"c1", "pc"⟩
        ["node-aaa", "ghost"] =
      AddNodesOutcome.err [("ghost", "Node not found")] :=
  ⟨rfl, rfl⟩

theorem splitOnceAux_append (v rest : List Char) (hv : '_' ∉ v) :
    splitOnceAux (v ++ '_' :: rest) = (v, some rest) := by
  induction v with
  | nil => simp [splitOnceAux]
  | cons c cs ih =>
    have hc : ¬ (c = '_') := fun h => hv (by simp [h])
    have hcs : '_' ∉ cs := fun h => hv (by simp [h])
    simp [splitOnceAux, hc, ih hcs]

theorem pySplit1_append (verb stage : String) (hv : '_' ∉ verb.data) :
    pySplit1 (verb ++ "_" ++ stage) = (verb, some stage) := by
  unfold pySplit1
  have h1 : (verb ++ "_" ++ stage).data = verb.data ++ '_' :: stage.data := by
    simp [String.data_append]
  rw [h1, splitOnceAux_append _ _ hv]
  rfl

/-- C8: a polled status word VERB_STAGE with the expected verb yields
continue-polling (false) for IN_PROGRESS, done (true) for COMPLETE and a
NodeStatusError for FAILED; an unexpected verb raises a NodeStatusError
whose reason names the expected and actual verbs. -/
theorem check_action_complete_spec (verb stage expected reason : String)
    (hv : '_' ∉ verb.data) :
    (verb = expected →
      (stage = "IN_PROGRESS" →
        check_action_complete (verb ++ "_" ++ stage) reason expected = .ok false)
      ∧ (stage = "COMPLETE" →
          check_action_complete (verb ++ "_" ++ stage) reason expected = .ok true)
      ∧ (stage = "FAILED" →
          check_action_complete (verb ++ "_" ++ stage) reason expected =
            .error (PyErr.nodeStatusError (verb ++ "_" ++ stage) reason)))
    ∧ (verb ≠ expected →
        check_action_complete (verb ++ "_" ++ stage) reason expected =
          .error (PyErr.nodeStatusError (verb ++ "_" ++ stage)
            ("Node action mismatch detected: expected=" ++ expected ++
              " actual=" ++ verb))) := by
  have hs := pySplit1_append verb stage hv
  constructor
  · intro hve
    subst hve
    refine ⟨?_, ?_, ?_⟩ <;> intro hst <;> subst hst <;>
      simp [check_action_complete, hs]
  · intro hne
    simp [check_action_complete, hs, hne]

/-- C8 witness: CREATE_COMPLETE observed while expecting CREATE finishes
the poll with true. -/
theorem check_action_complete_spec_witness :
    check_action_complete "CREATE_COMPLETE" "r" "CREATE" = .ok true := by
  exact ((check_action_complete_spec "CREATE" "COMPLETE" "CREATE" "r"
    (by decide)).1 rfl).2.1 rfl

/-- C9: when inputs carry no policy_id (absent or empty string), each of
do_attach_policy, do_detach_policy and do_update_policy raises
PolicyNotSpecified instead of returning a (result, reason) pair. -/
theorem policy_ops_require_policy_id (inputs : PolicyInputs)
    (load : String → PolicyObj) (bindings : List ClusterPolicy)
    (attach_res detach_res : Bool)
    (h : inputs.policy_id = none ∨ inputs.policy_id = some "") :
    do_attach_policy inputs load bindings attach_res = .policyNotSpecifiedError
    ∧ do_detach_policy inputs detach_res = .policyNotSpecifiedError
    ∧ do_update_policy inputs = .policyNotSpecifiedError := by
  rcases h with h | h <;>
    simp [do_attach_policy, do_detach_policy, do_update_policy, h]

/-- C9 witness: an empty policy_id string raises in all three handlers. -/
theorem policy_ops_require_policy_id_witness :
    do_attach_policy ⟨some "", none, none, none, none⟩ w9load [] true =
      .policyNotSpecifiedError
    ∧ do_detach_policy ⟨some "", none, none, none, none⟩ true =
      .policyNotSpecifiedError
    ∧ do_update_policy ⟨some "", none, none, none, none⟩ =
      .policyNotSpecifiedError := by
  exact policy_ops_require_policy_id ⟨some "", none, none, none, none⟩ w9load []
    true true (Or.inr rfl)

/-- C10: when the incoming envelope already carries a non-empty
deletion.candidates list, pre_op returns exactly that list with no
reselection; and every envelope pre_op returns has
deletion.destroy_after_deletion and deletion.grace_period overwritten with
the policy object configuration. -/
theorem pre_op_preserves_candidates_and_overrides
    (p : DeletionPolicyProps) (nodes : List Node) (rng : List Nat)
    (policy_data : PolicyData) (pd0 : DeletionData) (cs : List Candidate)
    (h1 : policy_data.deletion = some pd0) (h2 : pd0.candidates = some cs)
    (h3 : cs ≠ []) :
    pre_op p nodes rng policy_data =
      .ok { policy_data with deletion := some { pd0 with
        candidates := some cs,
        destroy_after_deletion := some p.destroy_after_deletion,
        grace_period := some p.grace_period } }
    ∧ ∀ (pd2 env : PolicyData), pre_op p nodes rng pd2 = .ok env →
        ∃ dd, env.deletion = some dd
          ∧ dd.destroy_after_deletion = some p.destroy_after_deletion
          ∧ dd.grace_period = some p.grace_period := by
  constructor
  · simp [pre_op, h1, h2, List.length_eq_zero, h3]
  · intro pd2 env h
    unfold pre_op at h
    rcases hdel : pd2.deletion with _ | pd
    · simp only [hdel] at h
      split at h
      · exact absurd h (by simp)
      · rw [Except.ok.injEq] at h
        subst h
        exact ⟨_, rfl, rfl, rfl⟩
    · simp only [hdel] at h
      split at h
      · exact absurd h (by simp)
      · rw [Except.ok.injEq] at h
        subst h
        exact ⟨_, rfl, rfl, rfl⟩

/-- C10 witness: caller-supplied candidates survive while the caller
destroy_after_deletion true and grace_period 9 are overwritten by the
policy values false and 7. -/
theorem pre_op_preserves_candidates_and_overrides_witness :
    pre_op ⟨RANDOM, 7, false⟩ [n1] []
      ⟨some ⟨some 2, some [Candidate.byId "x"], some true, some true, some 9⟩,
        none, none⟩ =
      .ok ⟨some ⟨some 2, some [Candidate.byId "x"], some true, some false, some 7⟩,
        none, none⟩ := by
  exact (pre_op_preserves_candidates_and_overrides ⟨RANDOM, 7, false⟩ [n1] []
    ⟨some ⟨some 2, some [Candidate.byId "x"], some true, some true, some 9⟩,
      none, none⟩
    ⟨some 2, some [Candidate.byId "x"], some true, some true, some 9⟩
    [Candidate.byId "x"] rfl rfl (by decide)).1

end Senlin
